import Mathlib

/-!
Shallow embedding of the redraw-scheduling and state-synchronization core of
the TvStreamer launcher (src/launcher.c): the telemetry sampler's dirty-flag
logic (stats_thread_func), the process supervisor (launch_app,
is_app_running), the navigation key handling and confirmation dialog
(handle_events, show_confirm), and the main scheduler tick (run).
Machine integers are modelled as Int; OS interactions (fork results, waitpid
results, wall-clock minutes, telemetry readings, dialog key presses) are
oracle parameters.
-/

namespace TvLauncher

/-- NUM_APPS from launcher.c: the launcher has 5 app tiles. -/
def NUM_APPS : Int := 5

/-! Telemetry sampler (stats_thread_func, lines 251-312). -/

/-- The four integer fields of the shared stats snapshot (struct Stats,
lines 85-92, without the flag/running fields). -/
structure StatsSnap where
  cpu : Int
  mem : Int
  temp : Int
  disk : Int
deriving DecidableEq

/-- The shared sampler state: the snapshot plus the dirty flag
(stats.changed). -/
structure StatsState where
  snap : StatsSnap
  changed : Bool
deriving DecidableEq

/-- One sampling pass's raw readings. Each source is best-effort: none means
the source was unavailable this cycle (fopen/sysinfo/statvfs failure, or the
first CPU cycle with no previous sample), in which case the field retains its
previous value, exactly as in stats_thread_func. -/
structure Readings where
  cpu : Option Int
  mem : Option Int
  temp : Option Int
  disk : Option Int
deriving DecidableEq

/-- A best-effort field update: a successful read replaces the value, a
failed read retains the old one. -/
def applyReading (r : Option Int) (old : Int) : Int :=
  match r with
  | some v => v
  | none => old

/-- The field-wise comparison of stats_thread_func lines 304-305: true when
at least one of the four fields differs. -/
def snapDiffers (a b : StatsSnap) : Bool :=
  a.cpu != b.cpu || a.mem != b.mem || a.temp != b.temp || a.disk != b.disk

/-- One iteration of the sampler loop body (stats_thread_func lines 255-309):
update the four fields best-effort, then set the dirty flag if any field
differs from its value before the pass (lines 303-307). The flag is never
cleared by the sampler. -/
def samplePass (st : StatsState) (r : Readings) : StatsState :=
  let old := st.snap
  let snap2 : StatsSnap :=
    { cpu := applyReading r.cpu old.cpu
      mem := applyReading r.mem old.mem
      temp := applyReading r.temp old.temp
      disk := applyReading r.disk old.disk }
  { snap := snap2, changed := if snapDiffers snap2 old then true else st.changed }

/-- A sequence of sampling passes applied in order. -/
def runPasses (st : StatsState) (rs : List Readings) : StatsState :=
  rs.foldl samplePass st

/-- Whether a given pass changes at least one field of the snapshot. -/
def passChanged (st : StatsState) (r : Readings) : Bool :=
  snapDiffers (samplePass st r).snap st.snap

/-- Whether at least one pass in a sequence changes the snapshot. -/
def anyChange : StatsState → List Readings → Bool
  | _, [] => false
  | st, r :: rs => passChanged st r || anyChange (samplePass st r) rs

/-- The scheduler's read-and-clear of the dirty flag (run, lines 961-964):
observe the flag, and clear it when it was set. Returns the observation and
the state afterwards. -/
def consumeDirty (st : StatsState) : Bool × StatsState :=
  if st.changed then (true, { st with changed := false }) else (false, st)

/-! Process supervisor (launch_app lines 593-605, is_app_running
lines 608-624). The tracked pid launched_app_pid is an Int, 0 when no child
is tracked, matching the C global. -/

/-- launch_app's effect on the tracked pid: fork's parent-side return value
is the oracle forkResult (a positive pid on success, -1 on failure); the pid
is recorded only when fork succeeded (line 602-604). -/
def launch_app (tracked : Int) (forkResult : Int) : Int :=
  if forkResult > 0 then forkResult else tracked

/-- The outcome of the non-blocking waitpid call, as an oracle: the child
has exited (waitpid returns the pid), is still running (waitpid returns 0),
or the query failed (waitpid returns -1, e.g. no such process). -/
inductive WaitRes where
  | exited
  | stillRunning
  | err
deriving DecidableEq

/-- is_app_running (lines 608-624): with no tracked pid, report not running
without polling; otherwise poll non-blockingly, clearing the tracked pid on
exit and on error, and leaving it unchanged while the child still runs.
Returns (running?, tracked pid afterwards). -/
def is_app_running (pid : Int) (w : WaitRes) : Bool × Int :=
  if pid ≤ 0 then (false, pid)
  else
    match w with
    | WaitRes.exited => (false, 0)
    | WaitRes.stillRunning => (true, pid)
    | WaitRes.err => (false, 0)

/-! Confirmation dialog (show_confirm, lines 628-680). -/

/-- A key press seen by the modal confirmation dialog: Enter (or keypad
Enter), Escape, or any other key (ignored by the dialog). -/
inductive DKey where
  | enter
  | escape
  | other
deriving DecidableEq

/-- show_confirm's synchronous wait loop (lines 667-679): scan the incoming
key presses; the first Enter returns accept (some true), the first Escape
returns cancel (some false), every other key is skipped. If no terminal key
ever arrives the loop never returns (none). -/
def show_confirm : List DKey → Option Bool
  | [] => none
  | DKey.enter :: _ => some true
  | DKey.escape :: _ => some false
  | DKey.other :: ks => show_confirm ks

/-! Scheduler state and event handling (handle_events lines 684-756,
run lines 927-975). -/

/-- The mutable launcher state the scheduler core reads and writes: the
navigation fields (selected, settings_selected, needs_redraw, last_minute,
app_running from the Launcher struct, lines 126-130), the window's hidden
state (SDL_HideWindow/SDL_ShowWindow), the supervisor's tracked pid
(launched_app_pid, line 591), and the shared stats state. -/
structure SchedState where
  selected : Int
  settings_selected : Bool
  needs_redraw : Bool
  last_minute : Int
  app_running : Bool
  window_hidden : Bool
  tracked_pid : Int
  stats : StatsState
deriving DecidableEq

/-- The key-down events handle_events distinguishes. quitKey covers both
Escape and q (lines 694-696); confirm covers Return and keypad Enter. -/
inductive Key where
  | left
  | right
  | up
  | down
  | confirm
  | quitKey
  | reboot
  | poweroff
deriving DecidableEq

/-- The effect of one SDL_KEYDOWN event in handle_events (lines 690-752).
Every key-down first sets needs_redraw (line 691). forkResult is the fork
oracle for a confirm launch; dialogKeys feeds show_confirm for the
reboot/poweroff confirmation. Returns none when the modal dialog never
returns, otherwise the new state, whether the loop keeps going (false for a
quit key, mirroring handle_events returning 0), and the list of privileged
shell commands issued via system(). -/
def handleKeyEvent (s : SchedState) (k : Key) (forkResult : Int)
    (dialogKeys : List DKey) : Option (SchedState × Bool × List String) :=
  let s := { s with needs_redraw := true }
  match k with
  | Key.quitKey => some (s, false, [])
  | Key.left =>
    if s.settings_selected then
      some ({ s with settings_selected := false }, true, [])
    else
      some ({ s with selected := (s.selected - 1 + NUM_APPS) % NUM_APPS },
            true, [])
  | Key.right =>
    if s.settings_selected then
      some ({ s with settings_selected := false, selected := 0 }, true, [])
    else
      some ({ s with selected := (s.selected + 1) % NUM_APPS }, true, [])
  | Key.up =>
    if !s.settings_selected then
      some ({ s with settings_selected := true }, true, [])
    else
      some (s, true, [])
  | Key.down =>
    if s.settings_selected then
      some ({ s with settings_selected := false }, true, [])
    else
      some (s, true, [])
  | Key.confirm =>
    some ({ s with tracked_pid := launch_app s.tracked_pid forkResult,
                   app_running := true, window_hidden := true }, true, [])
  | Key.reboot =>
    match show_confirm dialogKeys with
    | none => none
    | some ok =>
      some ({ s with needs_redraw := true }, true,
            if ok then ["sudo reboot"] else [])
  | Key.poweroff =>
    match show_confirm dialogKeys with
    | none => none
    | some ok =>
      some ({ s with needs_redraw := true }, true,
            if ok then ["sudo poweroff"] else [])

/-- An event in the SDL queue: SDL_QUIT or a key-down with its oracles. -/
inductive Ev where
  | quitEv
  | keydown (k : Key) (forkResult : Int) (dialogKeys : List DKey)

/-- handle_events (lines 684-756): drain the pending events in order,
stopping early (with keep-going = false) on SDL_QUIT or a quit key.
Accumulates the privileged commands issued. -/
def handle_events (s : SchedState) :
    List Ev → Option (SchedState × Bool × List String)
  | [] => some (s, true, [])
  | Ev.quitEv :: _ => some (s, false, [])
  | Ev.keydown k fr dk :: rest =>
    match handleKeyEvent s k fr dk with
    | none => none
    | some (s1, cont, cmds) =>
      if cont then
        match handle_events s1 rest with
        | none => none
        | some (s2, c2, cmds2) => some (s2, c2, cmds ++ cmds2)
      else some (s1, false, cmds)

/-- The result of one scheduler tick: the state afterwards, whether the loop
terminates, whether a repaint was performed this tick, and the idle delay in
milliseconds chosen at the end of the tick. -/
structure TickOut where
  st : SchedState
  quitLoop : Bool
  repainted : Bool
  delay : Nat
deriving DecidableEq

/-- The tail of the loop body after the child-process check (run,
lines 951-973): the minute-rollover check (lines 952-958), the dirty-flag
read-and-clear (lines 961-964), and the conditional repaint (lines 967-970),
followed by the 50ms idle. minute is the wall-clock oracle
(tm_hour * 60 + tm_min). -/
def tickRest (s : SchedState) (minute : Int) : TickOut :=
  let s := if minute ≠ s.last_minute then
             { s with last_minute := minute, needs_redraw := true }
           else s
  let s := if s.stats.changed then
             { s with stats := { s.stats with changed := false },
                      needs_redraw := true }
           else s
  if s.needs_redraw then
    { st := { s with needs_redraw := false }, quitLoop := false,
      repainted := true, delay := 50 }
  else
    { st := s, quitLoop := false, repainted := false, delay := 50 }

/-- The loop body after event handling (run, lines 936-973): when a child is
tracked as running, poll it; while it still runs, skip everything else and
idle 200ms (the continue at line 947); when it has exited, clear the running
flag, re-show the window, force needs_redraw, and fall through to the
minute check. -/
def tickBody (s : SchedState) (w : WaitRes) (minute : Int) : TickOut :=
  if s.app_running then
    let pr := is_app_running s.tracked_pid w
    if pr.1 then
      { st := { s with tracked_pid := pr.2 }, quitLoop := false,
        repainted := false, delay := 200 }
    else
      tickRest { s with tracked_pid := pr.2, app_running := false,
                        window_hidden := false, needs_redraw := true } minute
  else
    tickRest s minute

/-- One full scheduler tick (run loop body, lines 932-974): drain events,
then run the rest of the tick; a quit event or key ends the loop. none when
a modal dialog opened during event handling never returns. -/
def tick (s : SchedState) (evs : List Ev) (w : WaitRes) (minute : Int) :
    Option (TickOut × List String) :=
  match handle_events s evs with
  | none => none
  | some (s1, cont, cmds) =>
    if cont then some (tickBody s1 w minute, cmds)
    else some ({ st := s1, quitLoop := true, repainted := false, delay := 0 },
               cmds)

/-- The state after one key event, for stating pure navigation facts. For
the four directional keys handleKeyEvent never consults the oracles and
never returns none, so the fallback branch is unreachable there. -/
def navResult (s : SchedState) (k : Key) : SchedState :=
  match handleKeyEvent s k 0 [] with
  | some r => r.1
  | none => s

/-- Modelled from the spec: the section 4.3 navigation transition table for
the four directional keys, as (selected tile, settings-focused) afterwards.
In tiles focus, left/right select the previous/next tile with wrap-around,
up enters settings focus, down is a no-op; in settings focus, left and down
return to tiles focus keeping the last tile, right returns to tiles focus at
tile 0, up is a no-op. -/
def specNavTable (sel : Int) (settings : Bool) (k : Key) : Int × Bool :=
  match k, settings with
  | Key.left, false => (if sel = 0 then NUM_APPS - 1 else sel - 1, false)
  | Key.left, true => (sel, false)
  | Key.right, false => (if sel = NUM_APPS - 1 then 0 else sel + 1, false)
  | Key.right, true => ((0 : Int), false)
  | Key.up, false => (sel, true)
  | Key.up, true => (sel, true)
  | Key.down, false => (sel, false)
  | Key.down, true => (sel, false)
  | _, _ => (sel, settings)

/-! Field-granularity interleaving model for the shared Stats struct
(claim about atomicity). The sampler stores the four fields with four
separate unsynchronized assignments (lines 268, 282, 290, 300); a reader
that interleaves after k of those stores observes the state below. -/

/-- The shared snapshot as observed by a reader after the sampler has
completed k of its four field stores of a pass that replaces old by nw. -/
def writeSeq (old nw : StatsSnap) (k : Nat) : StatsSnap :=
  { cpu := if 1 ≤ k then nw.cpu else old.cpu
    mem := if 2 ≤ k then nw.mem else old.mem
    temp := if 3 ≤ k then nw.temp else old.temp
    disk := if 4 ≤ k then nw.disk else old.disk }

/-- The scheduler's dirty-flag consumption at instruction granularity
(lines 961-962): read the flag, then (only if it was set) store 0 — with a
possible sampler store of 1 (line 306) interleaved between the read and
the clear. Returns (value observed, flag afterwards). -/
def interleavedTestClear (c0 : Bool) (setBetween : Bool) : Bool × Bool :=
  let observed := c0
  let c1 := c0 || setBetween
  let c2 := if observed then false else c1
  (observed, c2)

/-- Modelled from the spec: an atomic test-and-clear followed by a sampler
set. The consumer observes the flag and clears it indivisibly, so a set
arriving afterwards is retained for the next consumption. -/
def atomicTestClearThenSet (c0 : Bool) (setAfter : Bool) : Bool × Bool :=
  (c0, setAfter)

/-- A concrete launcher state matching the initial state set up by
launcher_create (lines 863-867) with last_minute normalised to 0 and the
redraw flag already consumed, used to instantiate theorems. -/
def baseState : SchedState :=
  { selected := 0, settings_selected := false, needs_redraw := false,
    last_minute := 0, app_running := false, window_hidden := false,
    tracked_pid := 0,
    stats := { snap := { cpu := 0, mem := 0, temp := 0, disk := 0 },
               changed := false } }

/-! Helper lemmas. -/

lemma if_true_else (b c : Bool) : (if b then true else c) = (c || b) := by
  cases b <;> cases c <;> rfl

lemma samplePass_changed (st : StatsState) (r : Readings) :
    (samplePass st r).changed = (st.changed || passChanged st r) := by
  simp only [samplePass, passChanged]
  rw [if_true_else]

lemma runPasses_nil (st : StatsState) : runPasses st [] = st := rfl

lemma runPasses_cons (st : StatsState) (r : Readings) (rs : List Readings) :
    runPasses st (r :: rs) = runPasses (samplePass st r) rs := rfl

lemma runPasses_changed (rs : List Readings) : ∀ st : StatsState,
    (runPasses st rs).changed = (st.changed || anyChange st rs) := by
  induction rs with
  | nil => intro st; simp [runPasses_nil, anyChange]
  | cons r rs ih =>
    intro st
    rw [runPasses_cons, anyChange, ih, samplePass_changed, Bool.or_assoc]

/-- Claim C2: the dirty flag is edge-triggered. A sampling pass sets the
flag exactly when one of the four fields differs from its value before the
pass and otherwise leaves it alone; starting from a consumed (clear) flag,
after any sequence of passes the flag is set exactly when some pass changed
a field; and the scheduler's read-and-clear observes the accumulated flag
and clears it, so an immediately following read-and-clear observes false —
any number of unread changes collapse into one observation. -/
theorem c2_dirty_flag_edge_trigger (st : StatsState) (r : Readings)
    (rs : List Readings) (snap0 : StatsSnap) :
    (samplePass st r).changed
        = (st.changed || snapDiffers (samplePass st r).snap st.snap)
  ∧ (runPasses { snap := snap0, changed := false } rs).changed
        = anyChange { snap := snap0, changed := false } rs
  ∧ consumeDirty st = (st.changed, { st with changed := false })
  ∧ (consumeDirty (consumeDirty st).2).1 = false := by
  refine ⟨samplePass_changed st r, ?_, ?_, ?_⟩
  · rw [runPasses_changed]; simp
  · cases st with
    | mk snap changed =>
      cases changed <;> simp [consumeDirty]
  · cases st with
    | mk snap changed =>
      cases changed <;> simp [consumeDirty]

/-- Claim C9: supervised-process poll lifecycle. While no child is tracked
the poll reports not running without touching the handle; with a tracked
child, a still-running poll reports running and leaves the handle unchanged,
the first poll after exit reports exited and clears the handle, a poll error
is treated exactly like a normal exit, and every subsequent poll (handle now
cleared) reports exited without resurrecting the running state. -/
theorem c9_poll_lifecycle (pid : Int) (w : WaitRes) (hpid : 0 < pid) :
    is_app_running pid WaitRes.stillRunning = (true, pid)
  ∧ is_app_running pid WaitRes.exited = (false, 0)
  ∧ is_app_running pid WaitRes.err = is_app_running pid WaitRes.exited
  ∧ is_app_running 0 w = (false, 0) := by
  have h : ¬ pid ≤ 0 := by omega
  refine ⟨?_, ?_, ?_, ?_⟩
  · simp [is_app_running, h]
  · simp [is_app_running, h]
  · simp [is_app_running, h]
  · cases w <;> simp [is_app_running]

theorem c9_poll_lifecycle_witness :
    is_app_running 7 WaitRes.stillRunning = (true, 7)
  ∧ is_app_running 7 WaitRes.exited = (false, 0)
  ∧ is_app_running 7 WaitRes.err = is_app_running 7 WaitRes.exited
  ∧ is_app_running 0 WaitRes.err = (false, 0) :=
  c9_poll_lifecycle 7 WaitRes.err (by decide)

/-- Claim C4: the key handler realizes the section 4.3 transition table for
all four directional keys in both focus states (8 cases), with wrap-around
modulo NUM_APPS = 5: right from tile 4 yields tile 0 and left from tile 0
yields tile 4. -/
theorem c4_nav_transition_table (s : SchedState) (k : Key)
    (h0 : 0 ≤ s.selected) (h5 : s.selected < NUM_APPS)
    (hk : k = Key.left ∨ k = Key.right ∨ k = Key.up ∨ k = Key.down) :
    ((navResult s k).selected, (navResult s k).settings_selected)
      = specNavTable s.selected s.settings_selected k := by
  rw [NUM_APPS] at h5
  rcases hk with rfl | rfl | rfl | rfl <;>
    cases hs : s.settings_selected <;>
      simp [navResult, handleKeyEvent, specNavTable, NUM_APPS, hs] <;>
        rcases eq_or_ne s.selected 0 with h0' | h0' <;>
          rcases eq_or_ne s.selected 4 with h4' | h4' <;>
            simp [h0', h4'] <;> omega

theorem c4_nav_transition_table_witness :
    ((navResult { baseState with selected := 4 } Key.right).selected,
     (navResult { baseState with selected := 4 } Key.right).settings_selected)
      = specNavTable 4 false Key.right :=
  c4_nav_transition_table { baseState with selected := 4 } Key.right
    (by decide) (by decide) (Or.inr (Or.inl rfl))

/-- Claim C10: up and down never modify the selected tile index, and left
pressed while settings-focused also leaves it unchanged; hence entering
settings focus with up and leaving with down (or left) restores the
previously selected tile, and only right from settings focus resets the
selection, to tile 0. -/
theorem c10_selection_preserved (s t : SchedState)
    (hset : t.settings_selected = true) :
    (navResult s Key.up).selected = s.selected
  ∧ (navResult s Key.down).selected = s.selected
  ∧ (navResult t Key.left).selected = t.selected
  ∧ (navResult t Key.right).selected = 0
  ∧ (navResult (navResult s Key.up) Key.down).selected = s.selected
  ∧ (navResult (navResult s Key.up) Key.down).settings_selected = false
  ∧ (navResult (navResult s Key.up) Key.left).selected = s.selected
  ∧ (navResult (navResult s Key.up) Key.left).settings_selected = false := by
  cases hs : s.settings_selected <;>
    simp [navResult, handleKeyEvent, hs, hset]

theorem c10_selection_preserved_witness :
    (navResult { baseState with selected := 3 } Key.up).selected = 3
  ∧ (navResult { baseState with selected := 3 } Key.down).selected = 3
  ∧ (navResult { baseState with selected := 3, settings_selected := true }
        Key.left).selected = 3
  ∧ (navResult { baseState with selected := 3, settings_selected := true }
        Key.right).selected = 0
  ∧ (navResult (navResult { baseState with selected := 3 } Key.up)
        Key.down).selected = 3
  ∧ (navResult (navResult { baseState with selected := 3 } Key.up)
        Key.down).settings_selected = false
  ∧ (navResult (navResult { baseState with selected := 3 } Key.up)
        Key.left).selected = 3
  ∧ (navResult (navResult { baseState with selected := 3 } Key.up)
        Key.left).settings_selected = false :=
  c10_selection_preserved { baseState with selected := 3 }
    { baseState with selected := 3, settings_selected := true } (by decide)

/-! Scheduler tick lemmas. -/

lemma tickRest_st_needs_redraw (s : SchedState) (m : Int) :
    (tickRest s m).st.needs_redraw = false := by
  simp only [tickRest]
  split_ifs <;> simp_all

lemma tickRest_st_changed (s : SchedState) (m : Int) :
    (tickRest s m).st.stats.changed = false := by
  simp only [tickRest]
  split_ifs <;> simp_all

lemma tickRest_st_last_minute (s : SchedState) (m : Int) :
    (tickRest s m).st.last_minute = m := by
  simp only [tickRest]
  split_ifs <;> simp_all

lemma tickRest_st_app_running (s : SchedState) (m : Int) :
    (tickRest s m).st.app_running = s.app_running := by
  simp only [tickRest]
  split_ifs <;> simp_all

lemma tickRest_st_window_hidden (s : SchedState) (m : Int) :
    (tickRest s m).st.window_hidden = s.window_hidden := by
  simp only [tickRest]
  split_ifs <;> simp_all

lemma tickRest_quitLoop (s : SchedState) (m : Int) :
    (tickRest s m).quitLoop = false := by
  simp only [tickRest]
  split_ifs <;> simp_all

lemma tickRest_delay (s : SchedState) (m : Int) :
    (tickRest s m).delay = 50 := by
  simp only [tickRest]
  split_ifs <;> simp_all

lemma tickRest_forced (s : SchedState) (m : Int) (h : s.needs_redraw = true) :
    (tickRest s m).repainted = true := by
  simp only [tickRest]
  split_ifs <;> simp_all

lemma tickRest_noop (s : SchedState) (m : Int) (h1 : s.needs_redraw = false)
    (h2 : s.stats.changed = false) (h3 : m = s.last_minute) :
    tickRest s m = { st := s, quitLoop := false, repainted := false,
                     delay := 50 } := by
  simp [tickRest, h1, h2, h3]

lemma tickRest_minute_trigger (s : SchedState) (m : Int)
    (hm : m ≠ s.last_minute) : (tickRest s m).repainted = true := by
  simp only [tickRest, if_pos hm]
  split_ifs <;> simp_all

lemma tickBody_notRunning (s : SchedState) (w : WaitRes) (m : Int)
    (h : s.app_running = false) : tickBody s w m = tickRest s m := by
  simp [tickBody, h]

lemma tickBody_repaint_props (s : SchedState) (w : WaitRes) (m : Int)
    (h : (tickBody s w m).repainted = true) :
    (tickBody s w m).st.needs_redraw = false
  ∧ (tickBody s w m).st.app_running = false
  ∧ (tickBody s w m).st.stats.changed = false := by
  have hcases : (∃ u : SchedState, tickBody s w m = tickRest u m
      ∧ u.app_running = false) ∨ (tickBody s w m).repainted = false := by
    by_cases ha : s.app_running = true
    · by_cases hp : (is_app_running s.tracked_pid w).1 = true
      · right; simp [tickBody, ha, hp]
      · left
        refine ⟨{ s with tracked_pid := (is_app_running s.tracked_pid w).2,
                         app_running := false, window_hidden := false,
                         needs_redraw := true }, ?_, rfl⟩
        simp [tickBody, ha, hp]
    · left
      have ha' : s.app_running = false := by simpa using ha
      exact ⟨s, tickBody_notRunning s w m ha', ha'⟩
  rcases hcases with ⟨u, hu, hua⟩ | hrep
  · rw [hu]
    exact ⟨tickRest_st_needs_redraw u m,
           by rw [tickRest_st_app_running, hua], tickRest_st_changed u m⟩
  · rw [hrep] at h
    exact absurd h (by simp)

/-- A state with an active supervised child tracked under pid 7, used to
instantiate the scheduler theorems. -/
def runningState : SchedState :=
  { baseState with app_running := true, window_hidden := true,
                   tracked_pid := 7 }

/-- Claim C3: with a child tracked as running, the tick polls it
non-blockingly. While it still runs, the tick changes nothing, performs no
repaint, skips the minute and dirty-flag checks, and idles 200ms. When the
poll reports it gone, the tick clears the running flag, re-shows the window,
forces a redraw, and falls through to the minute check: the minute is
brought up to date, a repaint happens, and the normal 50ms idle is used. -/
theorem c3_child_poll (s t : SchedState) (w : WaitRes) (m1 m2 : Int)
    (hs : s.app_running = true) (hspid : 0 < s.tracked_pid)
    (ht : t.app_running = true)
    (hex : (is_app_running t.tracked_pid w).1 = false) :
    tickBody s WaitRes.stillRunning m1
        = { st := s, quitLoop := false, repainted := false, delay := 200 }
  ∧ tickBody t w m2
        = tickRest { t with tracked_pid := (is_app_running t.tracked_pid w).2,
                            app_running := false, window_hidden := false,
                            needs_redraw := true } m2
  ∧ (tickBody t w m2).st.app_running = false
  ∧ (tickBody t w m2).st.window_hidden = false
  ∧ (tickBody t w m2).st.last_minute = m2
  ∧ (tickBody t w m2).repainted = true
  ∧ (tickBody t w m2).delay = 50 := by
  have hbody : tickBody t w m2
      = tickRest { t with tracked_pid := (is_app_running t.tracked_pid w).2,
                          app_running := false, window_hidden := false,
                          needs_redraw := true } m2 := by
    simp [tickBody, ht, hex]
  refine ⟨?_, hbody, ?_, ?_, ?_, ?_, ?_⟩
  · cases s with
    | mk sel set nr lm ar wh tp stt =>
      simp only at hs hspid
      simp [tickBody, hs, is_app_running, show ¬ tp ≤ 0 by omega]
  · rw [hbody, tickRest_st_app_running]
  · rw [hbody, tickRest_st_window_hidden]
  · rw [hbody, tickRest_st_last_minute]
  · rw [hbody]; exact tickRest_forced _ _ rfl
  · rw [hbody, tickRest_delay]

theorem c3_child_poll_witness :
    tickBody runningState WaitRes.stillRunning 3
        = { st := runningState, quitLoop := false, repainted := false,
            delay := 200 }
  ∧ tickBody runningState WaitRes.exited 4
        = tickRest { runningState with
                     tracked_pid := (is_app_running runningState.tracked_pid
                                      WaitRes.exited).2,
                     app_running := false, window_hidden := false,
                     needs_redraw := true } 4
  ∧ (tickBody runningState WaitRes.exited 4).st.app_running = false
  ∧ (tickBody runningState WaitRes.exited 4).st.window_hidden = false
  ∧ (tickBody runningState WaitRes.exited 4).st.last_minute = 4
  ∧ (tickBody runningState WaitRes.exited 4).repainted = true
  ∧ (tickBody runningState WaitRes.exited 4).delay = 50 :=
  c3_child_poll runningState runningState WaitRes.exited 3 4
    (by decide) (by decide) (by decide) (by decide)

/-- Claim C8: minute-rollover trigger. On a tick with no key events, no
running child and no telemetry change, a repaint fires exactly when the
wall-clock minute differs from the last rendered one, the new minute is
recorded by the tick, and a further tick in the same minute performs no
repaint. -/
theorem c8_minute_rollover (s : SchedState) (w w2 : WaitRes) (m : Int)
    (h1 : s.app_running = false) (h2 : s.needs_redraw = false)
    (h3 : s.stats.changed = false) :
    ((tickBody s w m).repainted = true ↔ m ≠ s.last_minute)
  ∧ (tickBody s w m).st.last_minute = m
  ∧ (tickBody (tickBody s w m).st w2 m).repainted = false := by
  rw [tickBody_notRunning s w m h1]
  have hsecond : (tickBody (tickRest s m).st w2 m).repainted = false := by
    rw [tickBody_notRunning _ w2 m (by rw [tickRest_st_app_running]; exact h1)]
    rw [tickRest_noop _ _ (tickRest_st_needs_redraw s m)
        (tickRest_st_changed s m) (tickRest_st_last_minute s m).symm]
  refine ⟨?_, tickRest_st_last_minute s m, hsecond⟩
  constructor
  · intro hrep hm
    rw [tickRest_noop s m h2 h3 hm] at hrep
    exact Bool.false_ne_true hrep
  · intro hm
    exact tickRest_minute_trigger s m hm

theorem c8_minute_rollover_witness :
    ((tickBody { baseState with last_minute := 659 } WaitRes.err 660).repainted
        = true ↔ (660 : Int) ≠ 659)
  ∧ (tickBody { baseState with last_minute := 659 } WaitRes.err
        660).st.last_minute = 660
  ∧ (tickBody (tickBody { baseState with last_minute := 659 } WaitRes.err
        660).st WaitRes.err 660).repainted = false :=
  c8_minute_rollover { baseState with last_minute := 659 } WaitRes.err
    WaitRes.err 660 (by decide) (by decide) (by decide)

lemma tick_nil (s : SchedState) (w : WaitRes) (m : Int) :
    tick s [] w m = some (tickBody s w m, []) := rfl

/-- Claim C7: the redraw decision is idempotent. After any tick that
performed a repaint, a further tick with no key events, the same wall-clock
minute as the one just rendered, and no new telemetry change performs no
repaint, changes nothing, and leaves needs_redraw false. -/
theorem c7_redraw_idempotent (s : SchedState) (evs : List Ev)
    (w1 w2 : WaitRes) (m1 : Int) (out1 : TickOut) (cmds : List String)
    (h1 : tick s evs w1 m1 = some (out1, cmds))
    (hrep : out1.repainted = true) :
    tick out1.st [] w2 out1.st.last_minute
        = some ({ st := out1.st, quitLoop := false, repainted := false,
                  delay := 50 }, [])
  ∧ out1.st.needs_redraw = false := by
  have hout : ∃ s1 : SchedState, out1 = tickBody s1 w1 m1 := by
    unfold tick at h1
    cases hhe : handle_events s evs with
    | none => rw [hhe] at h1; exact absurd h1 (by simp)
    | some res =>
      obtain ⟨s1, cont, cmds1⟩ := res
      rw [hhe] at h1
      by_cases hc : cont = true
      · rw [hc] at h1
        simp at h1
        exact ⟨s1, h1.1.symm⟩
      · have hc' : cont = false := by simpa using hc
        rw [hc'] at h1
        simp at h1
        rw [← h1.1] at hrep
        simp at hrep
  obtain ⟨s1, hs1⟩ := hout
  have hprops := tickBody_repaint_props s1 w1 m1 (by rw [← hs1]; exact hrep)
  rw [← hs1] at hprops
  obtain ⟨hnr, har, hch⟩ := hprops
  refine ⟨?_, hnr⟩
  rw [tick_nil, tickBody_notRunning _ _ _ har,
      tickRest_noop _ _ hnr hch rfl]

/-- A launcher state whose redraw flag is pending, used to instantiate the
redraw theorems. -/
def primedState : SchedState := { baseState with needs_redraw := true }

/-- The result of a concrete repainting tick, used to instantiate the
idempotence theorem. -/
def c7Out : TickOut := tickBody primedState WaitRes.exited 5

theorem c7_redraw_idempotent_witness :
    tick c7Out.st [] WaitRes.err c7Out.st.last_minute
        = some ({ st := c7Out.st, quitLoop := false, repainted := false,
                  delay := 50 }, [])
  ∧ c7Out.st.needs_redraw = false :=
  c7_redraw_idempotent primedState [] WaitRes.exited WaitRes.err 5 c7Out []
    (by decide) (by decide)

/-! Claim C1: the confirm key's launch path. -/

/-- The state change handle_events performs on a confirm key (lines
727-737): record the fork result via launch_app, then unconditionally mark
the app as running and hide the window — whether or not the spawn
succeeded. -/
def confirmStep (s : SchedState) (fr : Int) : SchedState :=
  { s with needs_redraw := true,
           tracked_pid := launch_app s.tracked_pid fr,
           app_running := true, window_hidden := true }

/-- Claim C1 counterexample: from the initial launcher state, a confirm key
event whose spawn fails (fork returns -1) still sets app_running to true and
hides the window — the claim that app_running stays false and the window
stays visible is false on the code. -/
theorem c1_spawn_failure_counterexample :
    handleKeyEvent baseState Key.confirm (-1) []
        = some (confirmStep baseState (-1), true, [])
  ∧ (confirmStep baseState (-1)).app_running = true
  ∧ (confirmStep baseState (-1)).window_hidden = true := by
  decide

/-- Claim C1 amended: a confirm key event whose spawn fails sets app_running
and hides the window, but — provided no earlier child is still tracked — the
next scheduler tick's non-blocking poll finds no running child, clears
app_running, re-shows the window and forces a repaint, so the launcher UI is
visible and interactive again within one tick. -/
theorem c1_spawn_failure_amended (s : SchedState) (fr : Int) (dk : List DKey)
    (w : WaitRes) (m : Int) (hfr : fr ≤ 0) (hpid : s.tracked_pid ≤ 0) :
    handleKeyEvent s Key.confirm fr dk = some (confirmStep s fr, true, [])
  ∧ (tickBody (confirmStep s fr) w m).st.app_running = false
  ∧ (tickBody (confirmStep s fr) w m).st.window_hidden = false
  ∧ (tickBody (confirmStep s fr) w m).repainted = true
  ∧ (tickBody (confirmStep s fr) w m).delay = 50 := by
  have htp : (confirmStep s fr).tracked_pid = s.tracked_pid := by
    simp [confirmStep, launch_app, show ¬ fr > 0 by omega]
  have hpoll1 : (is_app_running (confirmStep s fr).tracked_pid w).1
      = false := by
    rw [htp]
    unfold is_app_running
    rw [if_pos hpid]
  have har : (confirmStep s fr).app_running = true := rfl
  have hb : tickBody (confirmStep s fr) w m
      = tickRest { confirmStep s fr with
                   tracked_pid := (is_app_running
                     (confirmStep s fr).tracked_pid w).2,
                   app_running := false, window_hidden := false,
                   needs_redraw := true } m := by
    simp [tickBody, har, hpoll1]
  refine ⟨rfl, ?_, ?_, ?_, ?_⟩
  · rw [hb, tickRest_st_app_running]
  · rw [hb, tickRest_st_window_hidden]
  · rw [hb]; exact tickRest_forced _ _ rfl
  · rw [hb, tickRest_delay]

theorem c1_spawn_failure_amended_witness :
    handleKeyEvent baseState Key.confirm (-1) []
        = some (confirmStep baseState (-1), true, [])
  ∧ (tickBody (confirmStep baseState (-1)) WaitRes.err 2).st.app_running
      = false
  ∧ (tickBody (confirmStep baseState (-1)) WaitRes.err 2).st.window_hidden
      = false
  ∧ (tickBody (confirmStep baseState (-1)) WaitRes.err 2).repainted = true
  ∧ (tickBody (confirmStep baseState (-1)) WaitRes.err 2).delay = 50 :=
  c1_spawn_failure_amended baseState (-1) [] WaitRes.err 2
    (by decide) (by decide)

/-! Claim C6: atomicity of the shared snapshot and dirty flag. -/

/-- The all-zero snapshot. -/
def snapZero : StatsSnap := { cpu := 0, mem := 0, temp := 0, disk := 0 }

/-- The all-one snapshot. -/
def snapOne : StatsSnap := { cpu := 1, mem := 1, temp := 1, disk := 1 }

/-- What a reader observes when it interleaves after the sampler's second
field store of a pass replacing the all-zero snapshot by the all-one one. -/
def tornObserved : StatsSnap := writeSeq snapZero snapOne 2

/-- Claim C6 counterexample: the four snapshot fields are stored by four
separate unsynchronized writes, so a reader interleaving after two of them
observes a mix that matches neither the old nor the new pass; and the
scheduler's read-then-clear of the dirty flag differs from an atomic
test-and-clear when a sampler set lands between the read and the clear (the
set is lost). -/
theorem c6_atomicity_counterexample :
    tornObserved ≠ snapZero
  ∧ tornObserved ≠ snapOne
  ∧ interleavedTestClear true true ≠ atomicTestClearThenSet true true := by
  decide

/-- Claim C6 amended: the shared snapshot and flag are plain unsynchronized
ints, so consistency holds only at pass boundaries: a reader whose access
does not interleave inside a sampling pass (it runs before the first or
after the last of the four field stores) observes an internally consistent
snapshot, entirely old or entirely new; and the read-then-clear behaves as a
test-and-clear when no sampler set lands between its two steps. A mid-pass
reader can observe a torn mix, and an interposed set is lost, as the
counterexample shows. -/
theorem c6_atomicity_amended (old nw : StatsSnap) (k : Nat) (c0 : Bool)
    (hk : k = 0 ∨ 4 ≤ k) :
    (writeSeq old nw k = old ∨ writeSeq old nw k = nw)
  ∧ interleavedTestClear c0 false = (c0, false) := by
  constructor
  · rcases old with ⟨a, b, c, d⟩
    rcases nw with ⟨a2, b2, c2, d2⟩
    rcases hk with rfl | h4
    · left
      simp [writeSeq]
    · right
      simp [writeSeq, show 1 ≤ k by omega, show 2 ≤ k by omega,
            show 3 ≤ k by omega, h4]
  · cases c0 <;> rfl

theorem c6_atomicity_amended_witness :
    (writeSeq snapZero snapOne 4 = snapZero
      ∨ writeSeq snapZero snapOne 4 = snapOne)
  ∧ interleavedTestClear true false = (true, false) :=
  c6_atomicity_amended snapZero snapOne 4 true (Or.inr (by decide))

/-! Claim C5: confirmation gating for the privileged commands. -/

/-- Whether an event is a reboot or poweroff key whose confirmation dialog
returned accept. -/
def evAccepted : Ev → Bool
  | Ev.quitEv => false
  | Ev.keydown Key.reboot _ dk => show_confirm dk == some true
  | Ev.keydown Key.poweroff _ dk => show_confirm dk == some true
  | Ev.keydown _ _ _ => false

lemma handleKeyEvent_cmds (s : SchedState) (k : Key) (fr : Int)
    (dk : List DKey) (s1 : SchedState) (cont : Bool) (cmds : List String)
    (h : handleKeyEvent s k fr dk = some (s1, cont, cmds)) :
    cmds = [] ∨ (show_confirm dk = some true
      ∧ (k = Key.reboot ∨ k = Key.poweroff)) := by
  cases k <;> simp only [handleKeyEvent] at h <;>
    (try split at h) <;> (try split at h) <;> simp_all

lemma handle_events_cmds (evs : List Ev) : ∀ (s s2 : SchedState) (c2 : Bool)
    (cmds2 : List String), handle_events s evs = some (s2, c2, cmds2) →
    cmds2 ≠ [] → evs.any evAccepted = true := by
  induction evs with
  | nil =>
    intro s s2 c2 cmds2 h hne
    simp [handle_events] at h
    exact absurd h.2.2 hne
  | cons e rest ih =>
    intro s s2 c2 cmds2 h hne
    cases e with
    | quitEv =>
      simp [handle_events] at h
      exact absurd h.2.2 hne
    | keydown k fr dk =>
      simp only [handle_events] at h
      cases hk : handleKeyEvent s k fr dk with
      | none => rw [hk] at h; simp at h
      | some res =>
        obtain ⟨s1, cont, cmds⟩ := res
        rw [hk] at h
        have hacc : show_confirm dk = some true
            ∧ (k = Key.reboot ∨ k = Key.poweroff) →
            (Ev.keydown k fr dk :: rest).any evAccepted = true := by
          rintro ⟨hsc, rfl | rfl⟩ <;> simp [List.any_cons, evAccepted, hsc]
        by_cases hc : cont = true
        · rw [hc] at h
          simp only [if_true] at h
          cases hr : handle_events s1 rest with
          | none => rw [hr] at h; simp at h
          | some res2 =>
            obtain ⟨s2', c2', cmds2'⟩ := res2
            rw [hr] at h
            simp at h
            obtain ⟨h1, h2, h3⟩ := h
            by_cases hcm : cmds = []
            · have hne' : cmds2' ≠ [] := by
                rw [← h3] at hne
                simpa [hcm] using hne
              have := ih s1 s2' c2' cmds2' hr hne'
              simp [List.any_cons, this]
            · rcases handleKeyEvent_cmds s k fr dk s1 cont cmds hk with
                h' | h'
              · exact absurd h' hcm
              · exact hacc h'
        · have hc' : cont = false := by simpa using hc
          rw [hc'] at h
          simp at h
          obtain ⟨h1, h2, h3⟩ := h
          have hcm : cmds ≠ [] := by
            rw [← h3] at hne
            exact hne
          rcases handleKeyEvent_cmds s k fr dk s1 cont cmds hk with h' | h'
          · exact absurd h' hcm
          · exact hacc h'

/-- Claim C5: the privileged reboot/poweroff commands are issued only after
the modal confirmation dialog returned accept — both for a single key event
(any event that issues a command had its dialog return accept on a reboot or
poweroff key) and across a whole drained event queue; cancel (Escape) issues
no command, leaves selection and focus unchanged, forces needs_redraw, and
returns control to the normal loop; accept (Enter) issues exactly the one
privileged command; keys other than Enter/Escape are ignored by the
dialog. -/
theorem c5_confirmation_gating (s : SchedState) (fr : Int) (ks : List DKey)
    (k : Key) (dk : List DKey) (s1 : SchedState) (cont : Bool)
    (cmds : List String) (evs : List Ev) (s2 : SchedState) (c2 : Bool)
    (cmds2 : List String)
    (hke : handleKeyEvent s k fr dk = some (s1, cont, cmds))
    (hne : cmds ≠ [])
    (hev : handle_events s evs = some (s2, c2, cmds2))
    (hne2 : cmds2 ≠ []) :
    show_confirm dk = some true
  ∧ (k = Key.reboot ∨ k = Key.poweroff)
  ∧ evs.any evAccepted = true
  ∧ handleKeyEvent s Key.reboot fr (DKey.escape :: ks)
      = some ({ s with needs_redraw := true }, true, [])
  ∧ handleKeyEvent s Key.poweroff fr (DKey.escape :: ks)
      = some ({ s with needs_redraw := true }, true, [])
  ∧ handleKeyEvent s Key.reboot fr (DKey.enter :: ks)
      = some ({ s with needs_redraw := true }, true, ["sudo reboot"])
  ∧ handleKeyEvent s Key.poweroff fr (DKey.enter :: ks)
      = some ({ s with needs_redraw := true }, true, ["sudo poweroff"])
  ∧ show_confirm (DKey.other :: ks) = show_confirm ks := by
  rcases handleKeyEvent_cmds s k fr dk s1 cont cmds hke with h' | ⟨hsc, hk'⟩
  · exact absurd h' hne
  exact ⟨hsc, hk', handle_events_cmds evs s s2 c2 cmds2 hev hne2,
         rfl, rfl, rfl, rfl, rfl⟩

theorem c5_confirmation_gating_witness :
    show_confirm [DKey.enter] = some true
  ∧ (Key.reboot = Key.reboot ∨ Key.reboot = Key.poweroff)
  ∧ ([Ev.keydown Key.poweroff 0 [DKey.other, DKey.enter]].any evAccepted
      = true)
  ∧ handleKeyEvent baseState Key.reboot 0 (DKey.escape :: [])
      = some ({ baseState with needs_redraw := true }, true, [])
  ∧ handleKeyEvent baseState Key.poweroff 0 (DKey.escape :: [])
      = some ({ baseState with needs_redraw := true }, true, [])
  ∧ handleKeyEvent baseState Key.reboot 0 (DKey.enter :: [])
      = some ({ baseState with needs_redraw := true }, true, ["sudo reboot"])
  ∧ handleKeyEvent baseState Key.poweroff 0 (DKey.enter :: [])
      = some ({ baseState with needs_redraw := true }, true,
              ["sudo poweroff"])
  ∧ show_confirm (DKey.other :: []) = show_confirm [] :=
  c5_confirmation_gating baseState 0 [] Key.reboot [DKey.enter]
    { baseState with needs_redraw := true } true ["sudo reboot"]
    [Ev.keydown Key.poweroff 0 [DKey.other, DKey.enter]]
    { baseState with needs_redraw := true } true ["sudo poweroff"]
    (by decide) (by decide) (by decide) (by decide)

end TvLauncher
